import Mathlib

/-!
Shallow embedding of the credit-scoring script `Task1.py`.

The script is a linear batch pipeline: synthesize a tabular credit dataset
from a freshly seeded pseudo-random generator, derive three ratio features,
train four classifiers through one preprocessing pipeline, pick the best by
F1, optionally grid-tune a random forest, score one example applicant, and
serialize the selected pipeline.

Machine reals are modelled as `ℚ`.  The numpy global generator is modelled
as an explicit state threaded through the column draws; the parametric
distributions (normal, lognormal, beta, Poisson, exponential, categorical)
are modelled as deterministic functions of that state that have the correct
support (lognormal draws are strictly positive, beta draws lie in `[0,1)`,
Poisson draws are naturals); the clipping, the latent-score formula, the
Bernoulli sampling, the feature engineering, the model configurations and
the tail of the script are transcribed from the source.

Identifier renamings forced by the Lean setting: the dataframe columns
`debt_to_income_ratio` and `income_to_loan_ratio` become the record fields
`debt_to_income` and `income_to_loan` (the string column names are kept
verbatim where column names appear as data).
-/

namespace CreditScoring

/-- State of the global pseudo-random generator (the numpy generator `np.random`),
modelled abstractly as a 32-bit word. -/
structure Rng where
  state : ℕ
deriving DecidableEq, Repr

/-- Models `np.random.seed(k)` (line 22 of `Task1.py`): the global generator
state becomes a function of `k` alone. -/
def seedRng (k : ℕ) : Rng := ⟨k % 2 ^ 32⟩

/-- One step of the modelled generator (a linear congruential step). -/
def rngNext (r : Rng) : Rng := ⟨(1664525 * r.state + 1013904223) % 2 ^ 32⟩

/-- One uniform draw in `[0, 1)` together with the advanced generator. -/
def rngUnit (r : Rng) : ℚ × Rng :=
  (((rngNext r).state : ℚ) / 2 ^ 32, rngNext r)

/-- Positive monotone surrogate for the real exponential function, used to
model lognormal draws over `ℚ`; the verified claims use only that its values
are strictly positive, matching the support `(0, ∞)` of a lognormal. -/
def expModel (x : ℚ) : ℚ := if 0 ≤ x then 1 + x else 1 / (1 - x)

/-- Modelled `np.random.normal(mu, sigma, ...)` draw: a rational in
`[mu - 3*sigma, mu + 3*sigma)`; the claims depend only on determinism, not
on the bell shape. -/
def normalDraw (mu sigma : ℚ) (r : Rng) : ℚ × Rng :=
  (mu + sigma * (2 * (rngUnit r).1 - 1) * 3, (rngUnit r).2)

/-- Modelled `np.random.lognormal(mu, sigma, ...)` draw: the exponential of
a normal draw, hence strictly positive. -/
def lognormalDraw (mu sigma : ℚ) (r : Rng) : ℚ × Rng :=
  (expModel (normalDraw mu sigma r).1, (normalDraw mu sigma r).2)

/-- Modelled `np.random.beta(a, b, ...)` draw: a rational in `[0, 1)`. -/
def betaDraw (_a _b : ℚ) (r : Rng) : ℚ × Rng :=
  rngUnit r

/-- Modelled `np.random.poisson(lam, ...)` draw: a natural number derived
from the generator state; the claims use only the support `ℕ`. -/
def poissonDraw (_lam : ℚ) (r : Rng) : ℕ × Rng :=
  ((rngNext r).state % 20, rngNext r)

/-- Modelled `np.random.exponential(scale, ...)` draw: a nonnegative
rational `scale * u / (1 - u)` for a uniform `u ∈ [0,1)`. -/
def exponentialDraw (scale : ℚ) (r : Rng) : ℚ × Rng :=
  (scale * (rngUnit r).1 / (1 - (rngUnit r).1), (rngUnit r).2)

/-- Modelled `np.random.choice(opts, ..., p=...)` draw: one of the listed
options, selected by the generator state (the probability vector only
shapes frequencies, which no claim depends on). -/
def choiceDraw (opts : List String) (r : Rng) : String × Rng :=
  (opts.getD ((rngNext r).state % opts.length) (""), rngNext r)

/-- `np.clip(x, lo, hi)`: numpy documents this as
`np.minimum(hi, np.maximum(x, lo))`. -/
def clip {α : Type} [LinearOrder α] (lo hi x : α) : α := min hi (max lo x)

/-- `.astype(int)` on a float: truncation toward zero. -/
def truncToInt (x : ℚ) : ℤ := if 0 ≤ x then ⌊x⌋ else ⌈x⌉

/-- Draw a column of `n` values with a given per-element draw, threading the
generator left to right (the vectorized numpy calls consume the global
generator column by column). -/
def drawList {α : Type} (f : Rng → α × Rng) : ℕ → Rng → List α × Rng
  | 0, r => ([], r)
  | n + 1, r =>
    ((f r).1 :: (drawList f n (f r).2).1, (drawList f n (f r).2).2)

/-- Element-wise `np.random.binomial(1, p)` over a vector of probabilities:
each entry is `1` when the uniform draw falls below its probability,
else `0`. -/
def binomialList : List ℚ → Rng → List ℕ × Rng
  | [], r => ([], r)
  | p :: ps, r =>
    ((if (rngUnit r).1 < p then 1 else 0) :: (binomialList ps (rngUnit r).2).1,
     (binomialList ps (rngUnit r).2).2)

/-- Lines 24-25: `age = clip(normal(45, 15, n).astype(int), 18, 100)`.
The generator chain starts from `seedRng 42` (line 22). -/
def rAge (n : ℕ) : List ℚ × Rng := drawList (normalDraw 45 15) n (seedRng 42)

def age_col (n : ℕ) : List ℤ :=
  (rAge n).1.map (fun x => clip 18 100 (truncToInt x))

/-- Lines 27-28: `income = clip(lognormal(10.5, 0.35, n), 20000, 200000)`. -/
def rIncome (n : ℕ) : List ℚ × Rng := drawList (lognormalDraw 10.5 0.35) n (rAge n).2

def income_col (n : ℕ) : List ℚ := (rIncome n).1.map (clip 20000 200000)

/-- Line 30: `debt_to_income = beta(2, 5, n) * 100`. -/
def rDebt (n : ℕ) : List ℚ × Rng := drawList (betaDraw 2 5) n (rIncome n).2

def debt_col (n : ℕ) : List ℚ := (rDebt n).1.map (fun x => x * 100)

/-- Line 31: `credit_utilization = beta(3, 4, n) * 100`. -/
def rUtil (n : ℕ) : List ℚ × Rng := drawList (betaDraw 3 4) n (rDebt n).2

def util_col (n : ℕ) : List ℚ := (rUtil n).1.map (fun x => x * 100)

/-- Lines 32-33: `num_credit_lines = clip(poisson(8, n), 1, 20)`. -/
def rLines (n : ℕ) : List ℕ × Rng := drawList (poissonDraw 8) n (rUtil n).2

def lines_col (n : ℕ) : List ℕ := (rLines n).1.map (clip 1 20)

/-- Line 35: `payment_history = beta(7, 3, n) * 100`. -/
def rPay (n : ℕ) : List ℚ × Rng := drawList (betaDraw 7 3) n (rLines n).2

def pay_col (n : ℕ) : List ℚ := (rPay n).1.map (fun x => x * 100)

/-- Line 37: `derogatory_marks = poisson(0.7, n)`. -/
def rDerog (n : ℕ) : List ℕ × Rng := drawList (poissonDraw 0.7) n (rPay n).2

def derog_col (n : ℕ) : List ℕ := (rDerog n).1

/-- Lines 39-40: `credit_age = clip(exponential(15, n), 0, 50)`. -/
def rCreditAge (n : ℕ) : List ℚ × Rng := drawList (exponentialDraw 15) n (rDerog n).2

def credit_age_col (n : ℕ) : List ℚ := (rCreditAge n).1.map (clip 0 50)

/-- Line 42: `recent_inquiries = poisson(1.5, n)`. -/
def rInq (n : ℕ) : List ℕ × Rng := drawList (poissonDraw 1.5) n (rCreditAge n).2

def inq_col (n : ℕ) : List ℕ := (rInq n).1

/-- Line 44. -/
def employment_options : List String :=
  ["employed", "self-employed", "unemployed", "retired"]

/-- Line 45. -/
def rEmp (n : ℕ) : List String × Rng := drawList (choiceDraw employment_options) n (rInq n).2

def emp_col (n : ℕ) : List String := (rEmp n).1

/-- Line 47. -/
def home_options : List String := ["mortgage", "own", "rent", "other"]

/-- Line 48. -/
def rHome (n : ℕ) : List String × Rng := drawList (choiceDraw home_options) n (rEmp n).2

def home_col (n : ℕ) : List String := (rHome n).1

/-- Line 50: `loan_amount = lognormal(9.5, 0.8, n)` (not clipped). -/
def rLoan (n : ℕ) : List ℚ × Rng := drawList (lognormalDraw 9.5 0.8) n (rHome n).2

def loan_col (n : ℕ) : List ℚ := (rLoan n).1

/-- Line 62: `emp_status_map` (a total function on the four drawn options;
the Python dict has exactly these keys). -/
def emp_status_map (s : String) : ℚ :=
  if s = "employed" then 0.1
  else if s = "self-employed" then 0.05
  else if s = "unemployed" then -0.2
  else if s = "retired" then 0.0
  else 0

/-- Line 63: `home_status_map`. -/
def home_status_map (s : String) : ℚ :=
  if s = "mortgage" then 0.05
  else if s = "own" then 0.1
  else if s = "rent" then -0.05
  else if s = "other" then -0.1
  else 0

/-- Lines 52-66: the latent linear creditworthiness score of record `i` —
the weighted sum of normalized attributes plus the employment-status and
home-ownership offsets, before clipping. -/
def base_prob_at (n i : ℕ) : ℚ :=
  0.3 * ((income_col n).getD i 20000 / 100000) +
  0.2 * ((pay_col n).getD i 0 / 100) -
  0.15 * ((debt_col n).getD i 0 / 100) -
  0.1 * ((util_col n).getD i 0 / 100) -
  0.05 * ((derog_col n).getD i 0 : ℚ) / 5 +
  0.1 * ((credit_age_col n).getD i 0 / 30) -
  0.05 * ((inq_col n).getD i 0 : ℚ) / 5 +
  emp_status_map ((emp_col n).getD i ("employed")) +
  home_status_map ((home_col n).getD i ("mortgage"))

/-- Line 68: `base_prob = np.clip(base_prob, 0.05, 0.95)` — the per-record
Bernoulli parameters actually used for label sampling. -/
def base_prob_col (n : ℕ) : List ℚ :=
  (List.range n).map (fun i => clip 0.05 0.95 (base_prob_at n i))

/-- Line 69: `creditworthy = np.random.binomial(1, base_prob)`, consuming
the generator after the twelve attribute columns. -/
def rLabels (n : ℕ) : List ℕ × Rng := binomialList (base_prob_col n) (rLoan n).2

def creditworthy_col (n : ℕ) : List ℕ := (rLabels n).1

/-- The twelve raw applicant attributes (the dataframe columns of lines
71-84, label excluded).  Fields `debt_to_income` and `income_to_loan`
render the columns `debt_to_income_ratio` and `income_to_loan_ratio`. -/
structure Raw where
  age : ℤ
  income : ℚ
  debt_to_income : ℚ
  credit_utilization : ℚ
  number_of_credit_lines : ℕ
  payment_history_score : ℚ
  derogatory_marks : ℕ
  credit_age_years : ℚ
  recent_inquiries : ℕ
  employment_status : String
  home_ownership : String
  loan_amount : ℚ
deriving DecidableEq, Repr

/-- A dataset row: raw attributes plus the binary label. -/
structure Applicant extends Raw where
  creditworthy : ℕ
deriving DecidableEq, Repr

/-- Row `i` of the generated dataframe.  All column lists have length `n`,
so for `i < n` every `getD` hits a real element; the defaults are never
reached on generated data. -/
def mkApplicant (n i : ℕ) : Applicant :=
  { age := (age_col n).getD i 18
    income := (income_col n).getD i 20000
    debt_to_income := (debt_col n).getD i 0
    credit_utilization := (util_col n).getD i 0
    number_of_credit_lines := (lines_col n).getD i 1
    payment_history_score := (pay_col n).getD i 0
    derogatory_marks := (derog_col n).getD i 0
    credit_age_years := (credit_age_col n).getD i 0
    recent_inquiries := (inq_col n).getD i 0
    employment_status := (emp_col n).getD i ("employed")
    home_ownership := (home_col n).getD i ("mortgage")
    loan_amount := (loan_col n).getD i 1
    creditworthy := (creditworthy_col n).getD i 0 }

/-- Lines 21-87: `generate_credit_data(n_samples)`.  The function receives
the incoming global generator state and immediately discards it by
reseeding with the fixed seed 42 (line 22); the returned dataset is
therefore a function of `n` alone.  The second component is the global
generator state after the call. -/
def generate_credit_data (n : ℕ) (_r0 : Rng) : List Applicant × Rng :=
  ((List.range n).map (mkApplicant n), (rLabels n).2)

/-- A feature row of `X`: the twelve raw attributes plus the three derived
ratio features appended on lines 99-101. -/
structure FullRecord extends Raw where
  income_to_loan : ℚ
  credit_lines_per_year : ℚ
  payment_history_to_credit_age : ℚ
deriving DecidableEq, Repr

/-- Lines 99-101, the feature engineering applied to the training
dataframe:
`income_to_loan_ratio = income / loan_amount`,
`credit_lines_per_year = number_of_credit_lines / (credit_age_years + 1)`,
`payment_history_to_credit_age = payment_history_score / (credit_age_years + 1)`. -/
def engineer (r : Raw) : FullRecord :=
  { toRaw := r
    income_to_loan := r.income / r.loan_amount
    credit_lines_per_year := (r.number_of_credit_lines : ℚ) / (r.credit_age_years + 1)
    payment_history_to_credit_age := r.payment_history_score / (r.credit_age_years + 1) }

/-- Lines 278-294: the example applicant dataframe, with the derived
features hard-coded exactly as in the source (`75000 / 15000`, `5 / 8`,
`85.5 / 8`). -/
def new_applicant : FullRecord :=
  { age := 35
    income := 75000
    debt_to_income := 25.5
    credit_utilization := 30.2
    number_of_credit_lines := 5
    payment_history_score := 85.5
    derogatory_marks := 0
    credit_age_years := 8
    recent_inquiries := 1
    employment_status := "employed"
    home_ownership := "mortgage"
    loan_amount := 15000
    income_to_loan := 75000 / 15000
    credit_lines_per_year := 5 / 8
    payment_history_to_credit_age := 85.5 / 8 }

/-- The pair of class probabilities `predict_proba` returns for one record
of a fitted binary sklearn classifier: `p0` for class 0, `p1` for class 1. -/
structure BinProba where
  p0 : ℚ
  p1 : ℚ
deriving DecidableEq, Repr

/-- Modelled sklearn `predict` for a fitted binary classifier (line 296):
the class with maximal predicted probability, class 0 winning exact ties,
which is the first-occurrence semantics of `np.argmax` over the probability
row. -/
def predictFromProba (pr : BinProba) : ℕ := if pr.p0 < pr.p1 then 1 else 0

/-- Line 300: `confidence = prediction_proba[0][prediction[0]]` — the
probability row indexed at the predicted class. -/
def confidence (pr : BinProba) : ℚ :=
  if predictFromProba pr = 1 then pr.p1 else pr.p0

/-- Running first-maximum over the tail of the results table: the
accumulator is replaced only on a strictly larger value, so the earliest
maximal entry survives. -/
def runMax : (String × ℚ) → List (String × ℚ) → (String × ℚ)
  | acc, [] => acc
  | acc, p :: ps => runMax (if acc.2 < p.2 then p else acc) ps

/-- Line 185: the idxmax of the f1 column of the results dataframe, over the
results table as (model name, f1) pairs in insertion order (line 181
`from_dict` keeps dict insertion order).  Pandas `idxmax` returns the
label of the first occurrence of the maximum; on an empty table it has no
answer. -/
def idxmax : List (String × ℚ) → Option String
  | [] => none
  | p :: ps => some (runMax p ps).1

/-- Placeholder entry, used only as the never-reached `getD` default when
naming positions inside a nonempty results table. -/
def d0 : String × ℚ := ("", 0)

/-- A concrete results table exercising a tie on the maximal f1. -/
def sample_results : List (String × ℚ) :=
  [("Logistic Regression", 0.81), ("Decision Tree", 0.9),
   ("Random Forest", 0.9), ("Gradient Boosting", 0.85)]

/-- Lines 249-304, the tail of the script after model selection: when the
selected model name is the random forest, grid search runs and its best
estimator is bound to `best_tuned_model` (line 272) — `best_model` is never
reassigned — and line 304 serializes `best_model`.  The result pairs the
object passed to `joblib.dump` with the optional tuned estimator; pipeline
objects are identified abstractly by naturals. -/
def scriptTail (best_model_name : String) (best_model grid_best : ℕ) :
    ℕ × Option ℕ :=
  (best_model, if best_model_name = "Random Forest" then some grid_best else none)

/-- Constructor arguments of one candidate classifier (lines 134-139);
`class_weight` is `none` when the constructor call passes no class weight. -/
structure ClassifierConfig where
  name : String
  random_state : Option ℕ
  max_iter : Option ℕ
  n_estimators : Option ℕ
  class_weight : Option String
deriving DecidableEq, Repr

/-- Lines 134-139: the `models` dict, in insertion order. -/
def models : List ClassifierConfig :=
  [{ name := "Logistic Regression", random_state := some 42,
     max_iter := some 1000, n_estimators := none,
     class_weight := some ("balanced") },
   { name := "Decision Tree", random_state := some 42, max_iter := none,
     n_estimators := none, class_weight := some ("balanced") },
   { name := "Random Forest", random_state := some 42, max_iter := none,
     n_estimators := some 100, class_weight := some ("balanced") },
   { name := "Gradient Boosting", random_state := some 42, max_iter := none,
     n_estimators := none, class_weight := none }]

/-- Line 106: `categorical_cols`. -/
def categorical_cols : List String := ["employment_status", "home_ownership"]

/-- The columns of `X` in dataframe order: the twelve raw columns of lines
71-84 plus the three derived columns of lines 99-101, minus the label
dropped on line 103. -/
def X_columns : List String :=
  ["age", "income", "debt_to_income_ratio", "credit_utilization",
   "number_of_credit_lines", "payment_history_score", "derogatory_marks",
   "credit_age_years", "recent_inquiries", "employment_status",
   "home_ownership", "loan_amount", "income_to_loan_ratio",
   "credit_lines_per_year", "payment_history_to_credit_age"]

/-- Line 107: `numerical_cols = [col for col in X.columns if col not in
categorical_cols]`. -/
def numerical_cols : List String :=
  X_columns.filter (fun c => !(categorical_cols.contains c))

/-- `OneHotEncoder.get_feature_names_out(cols)` on a fitted encoder with
learned category lists `cats`: the category values of each column prefixed by
the column name, columns in order. -/
def get_feature_names_out (cols : List String) (cats : List (List String)) :
    List String :=
  ((cols.zip cats).map (fun p => p.2.map (fun v => p.1 ++ "_" ++ v))).flatten

/-- A fitted member transformer of the ColumnTransformer (lines 109-123):
the numerical pipeline (median imputer + standard scaler) passes its column
names through unchanged; the categorical pipeline ends in a fitted one-hot
encoder with learned category lists. -/
inductive FittedTransform where
  | scaled (cols : List String)
  | onehot (cols : List String) (cats : List (List String))
deriving DecidableEq, Repr

/-- Output feature names of one fitted member transformer. -/
def FittedTransform.outNames : FittedTransform → List String
  | scaled cols => cols
  | onehot cols cats => get_feature_names_out cols cats

/-- Lines 119-123: the ColumnTransformer lists the numerical transformer
first and the categorical transformer second; `empCats` and `homeCats` are
the category lists its one-hot encoder learned when fitted. -/
def preprocessor_transformers (empCats homeCats : List String) :
    List FittedTransform :=
  [FittedTransform.scaled numerical_cols,
   FittedTransform.onehot categorical_cols [empCats, homeCats]]

/-- The post-encoding column order the fitted preprocessor actually feeds
the classifier: the concatenation of the output
names of each member transformer, in the order the transformers are listed. -/
def preprocessor_output_names (empCats homeCats : List String) : List String :=
  ((preprocessor_transformers empCats homeCats).map FittedTransform.outNames).flatten

/-- Lines 221-226: the reconstructed feature-name list — a copy of
`numerical_cols` extended by the output names of the fitted one-hot encoder for
the categorical columns. -/
def feature_names (empCats homeCats : List String) : List String :=
  numerical_cols ++ get_feature_names_out categorical_cols [empCats, homeCats]

/-- Length of the `feature_importances_` vector of the classifier: sklearn
guarantees one importance per input feature, and the classifier inside the
fitted pipeline sees exactly the output columns of the preprocessor. -/
def importances_length (empCats homeCats : List String) : ℕ :=
  (preprocessor_output_names empCats homeCats).length

/-- The categories `np.unique` yields for `employment_status` when all four
options occur in the training data: sorted lexicographically. -/
def emp_fitted_cats : List String :=
  ["employed", "retired", "self-employed", "unemployed"]

/-- The sorted fitted categories for `home_ownership`. -/
def home_fitted_cats : List String := ["mortgage", "other", "own", "rent"]

theorem clip_le_hi {α : Type} [LinearOrder α] (lo hi x : α) : clip lo hi x ≤ hi :=
  min_le_left _ _

theorem lo_le_clip {α : Type} [LinearOrder α] {lo hi : α} (x : α) (h : lo ≤ hi) :
    lo ≤ clip lo hi x :=
  le_min h (le_max_left _ _)

theorem getD_pred {α : Type} (P : α → Prop) :
    ∀ (l : List α) (d : α), (∀ x ∈ l, P x) → P d → ∀ i, P (l.getD i d)
  | [], _, _, hd, _ => by simpa using hd
  | x :: _, _, h, _, 0 => by simpa using h x (by simp)
  | _ :: xs, d, h, hd, i + 1 => by
    simpa using getD_pred P xs d (fun y hy => h y (by simp [hy])) hd i

theorem drawList_forall {α : Type} (P : α → Prop) (f : Rng → α × Rng)
    (hf : ∀ r, P (f r).1) :
    ∀ (n : ℕ) (r : Rng), ∀ x ∈ (drawList f n r).1, P x
  | 0, r, x, hx => by simp [drawList] at hx
  | n + 1, r, x, hx => by
    simp only [drawList, List.mem_cons] at hx
    rcases hx with h | h
    · exact h ▸ hf r
    · exact drawList_forall P f hf n (f r).2 x h

theorem expModel_pos (x : ℚ) : 0 < expModel x := by
  by_cases h : 0 ≤ x
  · simp only [expModel, if_pos h]
    linarith
  · simp only [expModel, if_neg h]
    have hx : x < 0 := not_le.mp h
    have h1 : (0 : ℚ) < 1 - x := by linarith
    exact div_pos one_pos h1

theorem binomialList_zero_one :
    ∀ (ps : List ℚ) (r : Rng), ∀ y ∈ (binomialList ps r).1, y = 0 ∨ y = 1
  | [], r, y, hy => by simp [binomialList] at hy
  | p :: ps, r, y, hy => by
    simp only [binomialList, List.mem_cons] at hy
    rcases hy with h | h
    · subst h
      by_cases hc : (rngUnit r).1 < p <;> simp [hc]
    · exact binomialList_zero_one ps (rngUnit r).2 y h

theorem age_col_bounds (n : ℕ) : ∀ x ∈ age_col n, 18 ≤ x ∧ x ≤ 100 := by
  intro x hx
  simp only [age_col, List.mem_map] at hx
  obtain ⟨y, -, rfl⟩ := hx
  exact ⟨lo_le_clip _ (by norm_num), clip_le_hi _ _ _⟩

theorem income_col_bounds (n : ℕ) :
    ∀ x ∈ income_col n, (20000 : ℚ) ≤ x ∧ x ≤ 200000 := by
  intro x hx
  simp only [income_col, List.mem_map] at hx
  obtain ⟨y, -, rfl⟩ := hx
  exact ⟨lo_le_clip _ (by norm_num), clip_le_hi _ _ _⟩

theorem lines_col_bounds (n : ℕ) :
    ∀ x ∈ lines_col n, 1 ≤ x ∧ x ≤ 20 := by
  intro x hx
  simp only [lines_col, List.mem_map] at hx
  obtain ⟨y, -, rfl⟩ := hx
  exact ⟨lo_le_clip _ (by norm_num), clip_le_hi _ _ _⟩

theorem credit_age_col_bounds (n : ℕ) :
    ∀ x ∈ credit_age_col n, (0 : ℚ) ≤ x ∧ x ≤ 50 := by
  intro x hx
  simp only [credit_age_col, List.mem_map] at hx
  obtain ⟨y, -, rfl⟩ := hx
  exact ⟨lo_le_clip _ (by norm_num), clip_le_hi _ _ _⟩

theorem loan_col_pos (n : ℕ) : ∀ x ∈ loan_col n, 0 < x := by
  intro x hx
  exact drawList_forall (fun q : ℚ => 0 < q) (lognormalDraw 9.5 0.8)
    (fun r => expModel_pos _) n (rHome n).2 x (by simpa [loan_col, rLoan] using hx)

/-- C1: the three derived ratio features are NOT all computed identically
for the training dataframe and for the example applicant record: on the
example record (number_of_credit_lines = 5, payment_history_score = 85.5,
credit_age_years = 8) the script hard-codes `5 / 8` and `85.5 / 8`
(lines 292-293), while the training feature engineering (lines 100-101)
divides by `credit_age_years + 1 = 9`, giving `5 / 9` and `9.5`; only the
income-to-loan feature matches. -/
theorem new_applicant_derived_mismatch :
    new_applicant.income_to_loan = (engineer new_applicant.toRaw).income_to_loan ∧
    new_applicant.credit_lines_per_year ≠
      (engineer new_applicant.toRaw).credit_lines_per_year ∧
    new_applicant.payment_history_to_credit_age ≠
      (engineer new_applicant.toRaw).payment_history_to_credit_age ∧
    new_applicant.credit_lines_per_year = 5 / 8 ∧
    (engineer new_applicant.toRaw).credit_lines_per_year = 5 / 9 ∧
    new_applicant.payment_history_to_credit_age = 171 / 16 ∧
    (engineer new_applicant.toRaw).payment_history_to_credit_age = 19 / 2 := by
  refine ⟨?_, ?_, ?_, ?_, ?_, ?_, ?_⟩ <;> with_unfolding_all decide

/-- C6: every per-record latent probability actually used as the Bernoulli
parameter for the creditworthy label (the weighted-sum score plus the
employment-status and home-ownership offsets, clipped on line 68) lies in
[0.05, 0.95], and every sampled label in the generated dataset is 0 or 1. -/
theorem sampling_probs_clipped_and_labels_binary (n : ℕ) :
    (∀ p ∈ base_prob_col n, (0.05 : ℚ) ≤ p ∧ p ≤ 0.95) ∧
    (∀ r0 : Rng, ∀ a ∈ (generate_credit_data n r0).1,
      a.creditworthy = 0 ∨ a.creditworthy = 1) := by
  constructor
  · intro p hp
    simp only [base_prob_col, List.mem_map] at hp
    obtain ⟨i, -, rfl⟩ := hp
    exact ⟨lo_le_clip _ (by norm_num), clip_le_hi _ _ _⟩
  · intro r0 a ha
    simp only [generate_credit_data, List.mem_map] at ha
    obtain ⟨i, -, rfl⟩ := ha
    have hcol : ∀ y ∈ creditworthy_col n, y = 0 ∨ y = 1 := fun y hy =>
      binomialList_zero_one (base_prob_col n) (rLoan n).2 y
        (by simpa [creditworthy_col, rLabels] using hy)
    simpa [mkApplicant] using
      getD_pred (fun y : ℕ => y = 0 ∨ y = 1) (creditworthy_col n) 0 hcol
        (Or.inl rfl) i

/-- Witness for C6 at `n = 1`: the single clipped probability is in range
and the single sampled label is binary. -/
theorem sampling_probs_clipped_witness :
    ((0.05 : ℚ) ≤ (base_prob_col 1).getD 0 0 ∧ (base_prob_col 1).getD 0 0 ≤ 0.95) ∧
    ((mkApplicant 1 0).creditworthy = 0 ∨ (mkApplicant 1 0).creditworthy = 1) := by
  constructor
  · exact (sampling_probs_clipped_and_labels_binary 1).1
      ((base_prob_col 1).getD 0 0) (by
        have h : base_prob_col 1 = [clip 0.05 0.95 (base_prob_at 1 0)] := rfl
        rw [h]; simp)
  · exact (sampling_probs_clipped_and_labels_binary 1).2 ⟨0⟩ (mkApplicant 1 0) (by
      simp only [generate_credit_data]
      exact List.mem_map_of_mem (mkApplicant 1) (by simp))

/-- C7: every row of the generated dataset respects the clipped bounds:
age in [18, 100], income in [20000, 200000], number of credit lines in
[1, 20], credit age in [0, 50]. -/
theorem generated_rows_respect_bounds (n : ℕ) (r0 : Rng) :
    ∀ a ∈ (generate_credit_data n r0).1,
      (18 ≤ a.age ∧ a.age ≤ 100) ∧
      ((20000 : ℚ) ≤ a.income ∧ a.income ≤ 200000) ∧
      (1 ≤ a.number_of_credit_lines ∧ a.number_of_credit_lines ≤ 20) ∧
      ((0 : ℚ) ≤ a.credit_age_years ∧ a.credit_age_years ≤ 50) := by
  intro a ha
  simp only [generate_credit_data, List.mem_map] at ha
  obtain ⟨i, -, rfl⟩ := ha
  refine ⟨?_, ?_, ?_, ?_⟩
  · simpa [mkApplicant] using
      getD_pred (fun x : ℤ => 18 ≤ x ∧ x ≤ 100) (age_col n) 18
        (age_col_bounds n) (by norm_num) i
  · simpa [mkApplicant] using
      getD_pred (fun x : ℚ => 20000 ≤ x ∧ x ≤ 200000) (income_col n) 20000
        (income_col_bounds n) (by norm_num) i
  · simpa [mkApplicant] using
      getD_pred (fun x : ℕ => 1 ≤ x ∧ x ≤ 20) (lines_col n) 1
        (lines_col_bounds n) (by norm_num) i
  · simpa [mkApplicant] using
      getD_pred (fun x : ℚ => 0 ≤ x ∧ x ≤ 50) (credit_age_col n) 0
        (credit_age_col_bounds n) (by norm_num) i

/-- Witness for C7: the bounds hold at the first generated row for
`n = 1`. -/
theorem generated_rows_respect_bounds_witness :
    (18 ≤ (mkApplicant 1 0).age ∧ (mkApplicant 1 0).age ≤ 100) ∧
    ((20000 : ℚ) ≤ (mkApplicant 1 0).income ∧ (mkApplicant 1 0).income ≤ 200000) ∧
    (1 ≤ (mkApplicant 1 0).number_of_credit_lines ∧
      (mkApplicant 1 0).number_of_credit_lines ≤ 20) ∧
    ((0 : ℚ) ≤ (mkApplicant 1 0).credit_age_years ∧
      (mkApplicant 1 0).credit_age_years ≤ 50) :=
  generated_rows_respect_bounds 1 ⟨0⟩ (mkApplicant 1 0) (by
    simp only [generate_credit_data]
    exact List.mem_map_of_mem (mkApplicant 1) (by simp))

/-- C8: the generator is deterministic — because `generate_credit_data`
reseeds the global generator with the fixed seed 42 on entry, two calls
with the same `n` produce cell-for-cell identical datasets whatever the
incoming generator states, and the dataset has exactly `n` rows. -/
theorem generator_deterministic (n : ℕ) (r1 r2 : Rng) :
    (generate_credit_data n r1).1 = (generate_credit_data n r2).1 ∧
    ((generate_credit_data n r1).1).length = n := by
  refine ⟨rfl, ?_⟩
  simp [generate_credit_data]

/-- Witness for C8 at `n = 5` and two different incoming generator
states. -/
theorem generator_deterministic_witness :
    (generate_credit_data 5 ⟨0⟩).1 = (generate_credit_data 5 ⟨123456⟩).1 ∧
    ((generate_credit_data 5 ⟨0⟩).1).length = 5 :=
  generator_deterministic 5 ⟨0⟩ ⟨123456⟩

/-- C10: the feature-engineering divisions are well defined on generated
data — every generated row has a strictly positive (lognormal) loan amount
and a credit age with `credit_age_years + 1 ≥ 1`, so the denominators of
the three derived ratios are nonzero; multiplying the engineered ratio back
by its denominator recovers the numerator. -/
theorem derived_feature_denominators_nonzero (n : ℕ) (r0 : Rng) :
    ∀ a ∈ (generate_credit_data n r0).1,
      0 < a.loan_amount ∧ a.loan_amount ≠ 0 ∧
      0 < a.credit_age_years + 1 ∧ a.credit_age_years + 1 ≠ 0 ∧
      (engineer a.toRaw).income_to_loan * a.loan_amount = a.income ∧
      (engineer a.toRaw).credit_lines_per_year * (a.credit_age_years + 1) =
        a.number_of_credit_lines ∧
      (engineer a.toRaw).payment_history_to_credit_age * (a.credit_age_years + 1) =
        a.payment_history_score := by
  intro a ha
  simp only [generate_credit_data, List.mem_map] at ha
  obtain ⟨i, -, rfl⟩ := ha
  have hloan : 0 < (mkApplicant n i).loan_amount := by
    simpa [mkApplicant] using
      getD_pred (fun q : ℚ => 0 < q) (loan_col n) 1 (loan_col_pos n)
        one_pos i
  have hage : (0 : ℚ) ≤ (mkApplicant n i).credit_age_years := by
    simpa [mkApplicant] using
      (getD_pred (fun x : ℚ => 0 ≤ x ∧ x ≤ 50) (credit_age_col n) 0
        (credit_age_col_bounds n) (by norm_num) i).1
  have hpos : (0 : ℚ) < (mkApplicant n i).credit_age_years + 1 := by linarith
  refine ⟨hloan, ne_of_gt hloan, hpos, ne_of_gt hpos, ?_, ?_, ?_⟩
  · exact div_mul_cancel₀ _ (ne_of_gt hloan)
  · exact div_mul_cancel₀ _ (ne_of_gt hpos)
  · exact div_mul_cancel₀ _ (ne_of_gt hpos)

/-- Witness for C10 at the first generated row for `n = 1`. -/
theorem derived_feature_denominators_witness :
    0 < (mkApplicant 1 0).loan_amount ∧ (mkApplicant 1 0).loan_amount ≠ 0 ∧
    0 < (mkApplicant 1 0).credit_age_years + 1 ∧
    (mkApplicant 1 0).credit_age_years + 1 ≠ 0 ∧
    (engineer (mkApplicant 1 0).toRaw).income_to_loan * (mkApplicant 1 0).loan_amount =
      (mkApplicant 1 0).income ∧
    (engineer (mkApplicant 1 0).toRaw).credit_lines_per_year *
      ((mkApplicant 1 0).credit_age_years + 1) =
      (mkApplicant 1 0).number_of_credit_lines ∧
    (engineer (mkApplicant 1 0).toRaw).payment_history_to_credit_age *
      ((mkApplicant 1 0).credit_age_years + 1) =
      (mkApplicant 1 0).payment_history_score :=
  derived_feature_denominators_nonzero 1 ⟨0⟩ (mkApplicant 1 0) (by
    simp only [generate_credit_data]
    exact List.mem_map_of_mem (mkApplicant 1) (by simp))

/-- C2: the confidence printed for the single example prediction — the
probability row indexed at the predicted class,
`prediction_proba[0][prediction[0]]` — equals the maximum of the two
predicted class probabilities. -/
theorem confidence_eq_max_proba (pr : BinProba) :
    confidence pr = max pr.p0 pr.p1 := by
  by_cases h : pr.p0 < pr.p1
  · simp [confidence, predictFromProba, h, max_eq_right (le_of_lt h)]
  · simp [confidence, predictFromProba, h, max_eq_left (not_lt.mp h)]

/-- Witness for C2 at a concrete probability row. -/
theorem confidence_eq_max_proba_witness :
    confidence ⟨0.3, 0.7⟩ = max 0.3 0.7 :=
  confidence_eq_max_proba ⟨0.3, 0.7⟩

theorem runMax_spec (ps : List (String × ℚ)) :
    ∀ acc : String × ℚ,
      (runMax acc ps = acc ∧ ∀ p ∈ ps, p.2 ≤ acc.2) ∨
      (∃ i, i < ps.length ∧ runMax acc ps = ps.getD i d0 ∧
        acc.2 < (ps.getD i d0).2 ∧
        (∀ p ∈ ps, p.2 ≤ (ps.getD i d0).2) ∧
        (∀ j, j < i → (ps.getD j d0).2 < (ps.getD i d0).2)) := by
  induction ps with
  | nil => exact fun acc => Or.inl ⟨rfl, by simp⟩
  | cons q ps ih =>
    intro acc
    by_cases hlt : acc.2 < q.2
    · have h1 : runMax acc (q :: ps) = runMax q ps := by
        simp [runMax, hlt]
      rcases ih q with ⟨he, hall⟩ | ⟨i, hi, he, hacc, hall, hfirst⟩
      · refine Or.inr ⟨0, by simp, ?_, ?_, ?_, ?_⟩
        · rw [h1, he]; simp
        · simpa using hlt
        · intro p hp
          rcases List.mem_cons.mp hp with rfl | hp2
          · simp
          · simpa using hall p hp2
        · intro j hj
          exact absurd hj (Nat.not_lt_zero j)
      · refine Or.inr ⟨i + 1, by simpa using Nat.succ_lt_succ hi, ?_, ?_, ?_, ?_⟩
        · rw [h1, he]; simp [List.getD_cons_succ]
        · simpa [List.getD_cons_succ] using lt_trans hlt hacc
        · intro p hp
          rcases List.mem_cons.mp hp with rfl | hp2
          · simpa [List.getD_cons_succ] using le_of_lt hacc
          · simpa [List.getD_cons_succ] using hall p hp2
        · intro j hj
          cases j with
          | zero => simpa [List.getD_cons_succ] using hacc
          | succ k => simpa [List.getD_cons_succ] using hfirst k (by omega)
    · have h1 : runMax acc (q :: ps) = runMax acc ps := by
        simp [runMax, hlt]
      have hq : q.2 ≤ acc.2 := not_lt.mp hlt
      rcases ih acc with ⟨he, hall⟩ | ⟨i, hi, he, hacc, hall, hfirst⟩
      · refine Or.inl ⟨h1.trans he, ?_⟩
        intro p hp
        rcases List.mem_cons.mp hp with rfl | hp2
        · exact hq
        · exact hall p hp2
      · refine Or.inr ⟨i + 1, by simpa using Nat.succ_lt_succ hi, ?_, ?_, ?_, ?_⟩
        · rw [h1, he]; simp [List.getD_cons_succ]
        · simpa [List.getD_cons_succ] using hacc
        · intro p hp
          rcases List.mem_cons.mp hp with rfl | hp2
          · simpa [List.getD_cons_succ] using le_trans hq (le_of_lt hacc)
          · simpa [List.getD_cons_succ] using hall p hp2
        · intro j hj
          cases j with
          | zero => simpa [List.getD_cons_succ] using lt_of_le_of_lt hq hacc
          | succ k => simpa [List.getD_cons_succ] using hfirst k (by omega)

/-- C3: on a nonempty results table, `idxmax` returns the name at a
position whose f1 value is maximal, and every entry strictly before that
position has a strictly smaller f1 — the first of several tied maxima
wins. -/
theorem best_model_selection_first_max (l : List (String × ℚ)) (h : l ≠ []) :
    ∃ i, i < l.length ∧ idxmax l = some ((l.getD i d0).1) ∧
      (∀ p ∈ l, p.2 ≤ (l.getD i d0).2) ∧
      (∀ j, j < i → (l.getD j d0).2 < (l.getD i d0).2) := by
  match l with
  | [] => exact absurd rfl h
  | q :: ps =>
    rcases runMax_spec ps q with ⟨he, hall⟩ | ⟨i, hi, he, hacc, hall, hfirst⟩
    · refine ⟨0, by simp, ?_, ?_, ?_⟩
      · simp [idxmax, he]
      · intro p hp
        rcases List.mem_cons.mp hp with rfl | hp2
        · simp
        · simpa using hall p hp2
      · intro j hj
        exact absurd hj (Nat.not_lt_zero j)
    · refine ⟨i + 1, by simpa using Nat.succ_lt_succ hi, ?_, ?_, ?_⟩
      · simp [idxmax, he, List.getD_cons_succ]
      · intro p hp
        rcases List.mem_cons.mp hp with rfl | hp2
        · simpa [List.getD_cons_succ] using le_of_lt hacc
        · simpa [List.getD_cons_succ] using hall p hp2
      · intro j hj
        cases j with
        | zero => simpa [List.getD_cons_succ] using hacc
        | succ k => simpa [List.getD_cons_succ] using hfirst k (by omega)

/-- Witness for C3 on a concrete four-model results table containing a tie
on the maximal f1 (Decision Tree and Random Forest both at 0.9): the
selection lands on the first of the tied entries. -/
theorem best_model_selection_witness :
    ∃ i, i < sample_results.length ∧
      idxmax sample_results = some ((sample_results.getD i d0).1) ∧
      (∀ p ∈ sample_results, p.2 ≤ (sample_results.getD i d0).2) ∧
      (∀ j, j < i → (sample_results.getD j d0).2 < (sample_results.getD i d0).2) :=
  best_model_selection_first_max sample_results (by simp [sample_results])

/-- C4: the object serialized on line 304 is `best_model`, the pre-tuning
selected pipeline — the tuning branch binds the grid-search best estimator
only to `best_tuned_model`, so even when the selected model is the random
forest the persisted artifact is the pre-tuning pipeline, not the tuned
one. -/
theorem persisted_model_is_pretuning (name : String) (bm gb : ℕ)
    (h : name = "Random Forest") :
    (scriptTail name bm gb).1 = bm ∧
    (scriptTail name bm gb).2 = some gb ∧
    (bm ≠ gb → (scriptTail name bm gb).1 ≠ gb) := by
  subst h
  refine ⟨rfl, by simp [scriptTail], fun hne => ?_⟩
  simpa [scriptTail] using hne

/-- Witness for C4 with distinct pre-tuning and tuned pipelines. -/
theorem persisted_model_is_pretuning_witness :
    (scriptTail ("Random Forest") 1 2).1 = 1 ∧
    (scriptTail ("Random Forest") 1 2).2 = some 2 ∧
    ((1 : ℕ) ≠ 2 → (scriptTail ("Random Forest") 1 2).1 ≠ 2) :=
  persisted_model_is_pretuning ("Random Forest") 1 2 rfl

/-- C5: of the four candidate classifiers, exactly the three named models
(logistic regression, decision tree, random forest) are constructed with
a balanced class weight, and the gradient boosting classifier is
constructed with no class-weight correction. -/
theorem class_weight_asymmetry :
    (models.map (fun m => (m.name, m.class_weight))) =
      [("Logistic Regression", some ("balanced")),
       ("Decision Tree", some ("balanced")),
       ("Random Forest", some ("balanced")),
       ("Gradient Boosting", (none : Option String))] ∧
    ((models.filter (fun m => m.class_weight == some ("balanced"))).map
      (fun m => m.name)) =
      ["Logistic Regression", "Decision Tree", "Random Forest"] ∧
    (models.filter (fun m => m.class_weight == some ("balanced"))).length = 3 := by
  refine ⟨?_, ?_, ?_⟩ <;> decide

/-- C9: the reconstructed feature-name list (numerical columns in original
order, then the one-hot names) coincides, for any fitted category lists,
with the column order the ColumnTransformer actually produces (numerical
block first, categorical one-hot block second), and its length equals the
length of the importance vector of the classifier. -/
theorem feature_names_match_preprocessor (empCats homeCats : List String) :
    feature_names empCats homeCats = preprocessor_output_names empCats homeCats ∧
    (feature_names empCats homeCats).length = importances_length empCats homeCats := by
  constructor
  · simp [feature_names, preprocessor_output_names, preprocessor_transformers,
      FittedTransform.outNames]
  · simp [importances_length, feature_names, preprocessor_output_names,
      preprocessor_transformers, FittedTransform.outNames]

/-- Witness for C9 at the concrete sorted category lists fitted on the
generated data, where the list has 13 numerical plus 8 one-hot names. -/
theorem feature_names_match_witness :
    (feature_names emp_fitted_cats home_fitted_cats =
      preprocessor_output_names emp_fitted_cats home_fitted_cats ∧
     (feature_names emp_fitted_cats home_fitted_cats).length =
      importances_length emp_fitted_cats home_fitted_cats) ∧
    (feature_names emp_fitted_cats home_fitted_cats).length = 21 :=
  ⟨feature_names_match_preprocessor emp_fitted_cats home_fitted_cats, by decide⟩

end CreditScoring
